import Mathlib

set_option linter.unusedVariables false

/- Shallow embedding of the SteelSeries Rival 650 battery monitor core
   (src/_init.py together with the registry in src/devices.py).

   The HID transport (the hid library) is an external collaborator and is
   modelled as an explicit environment: the interface list that enumeration
   yields, whether opening a given path succeeds (an open failure in the
   source raises IOError), and the bytes a read returns for a device and a
   requested length.  Exceptions of the source are modelled with Except and
   are folded into values exactly where the source catches them.  Calls that
   open, write to, decode from and close a device are recorded in an event
   log so that resource and safety properties can be stated. -/

def HID_USAGE_VALUE : Nat := 1

def DEFAULT_TIMEOUT_MS : Nat := 200

def DEFAULT_REPORT_ID : Nat := 0x00

/- devices.py: HID_REPORT_TYPE_OUTPUT = 0x02 -/
def HID_REPORT_TYPE_OUTPUT : Nat := 0x02

/- One entry of the list that hid.enumerate returns: the fields the source
   reads (path, interface_number, usage).  Paths are numbered. -/
structure Interface where
  path : Nat
  interface_number : Nat
  usage : Nat
deriving DecidableEq

/- The transport environment.  open_path yields true when opening the path
   succeeds and false when the hid library raises.  read gives the bytes a
   read on the device (vendor_id, product_id, endpoint) returns when asked
   for the given number of bytes; it may be shorter than requested. -/
structure Transport where
  enumerate : Nat → Nat → List Interface
  open_path : Nat → Bool
  read : Nat → Nat → Nat → Nat → List Nat

/- _init.py DeviceModel. -/
structure DeviceModel where
  name : String
  vendor_id : Nat
  product_id : Nat
  endpoint : Nat
deriving DecidableEq

/- devices.py battery_level entry.  The two decoding closures may raise
   IndexError in the source; that is modelled by returning none. -/
structure BatteryLevelSpec where
  report_type : Nat
  command : List Nat
  response_length : Nat
  is_charging : List Nat → Option Bool
  level : List Nat → Option Nat

/- One entry of devices.profile. -/
structure DeviceProfile where
  name : String
  models : List DeviceModel
  battery_level : BatteryLevelSpec

/- _init.py DeviceStatus. -/
structure DeviceStatus where
  name : String
  battery : Option Nat
  charging : Option Bool
deriving DecidableEq

/- The exceptions the source defines and catches. -/
inductive HIDError where
  | deviceNotFoundError
  | invalidHIDReportError
  | indexError
deriving DecidableEq

/- The fields a successful attempt writes into the status dictionary. -/
structure StatusUpdate where
  name : String
  battery : Nat
  charging : Bool
deriving DecidableEq

/- Observable events of one get_status call: a session returned by
   open_device, a close of such a session, a completed device.write, and an
   application of the profile decoding closures to a response buffer
   together with the response_length in force. -/
inductive Event where
  | opened (vendor_id product_id endpoint : Nat)
  | closed (vendor_id product_id endpoint : Nat)
  | wrote (vendor_id product_id endpoint : Nat) (bytes : List Nat)
  | decoded (data : List Nat) (response_length : Nat)
deriving DecidableEq

/- devices.py: the two concrete models of the single profile. -/
def rival650_wired : DeviceModel :=
  { name := "SteelSeries Rival 650 (wired mode)"
    vendor_id := 0x1038
    product_id := 0x172B
    endpoint := 0 }

def rival650_wireless : DeviceModel :=
  { name := "SteelSeries Rival 650 (wireless mode)"
    vendor_id := 0x1038
    product_id := 0x1726
    endpoint := 0 }

/- devices.py: the battery_level dictionary.  level is data[0] and
   is_charging is bool(data[2]); both raise IndexError on a buffer that is
   too short, modelled by none. -/
def rival650_battery_level : BatteryLevelSpec :=
  { report_type := HID_REPORT_TYPE_OUTPUT
    command := [0xAA, 0x01]
    response_length := 3
    is_charging := fun data => (data.get? 2).map (fun b => b != 0)
    level := fun data => data.get? 0 }

/- devices.py: profile. -/
def profile : List DeviceProfile :=
  [{ name := "SteelSeries Rival 650 Wireless"
     models := [rival650_wired, rival650_wireless]
     battery_level := rival650_battery_level }]

/- _init.py _load_models: the flattening comprehension over
   devices.profile, rebuilding each model dictionary field by field.  It is
   kept parametric in the registry so that behaviour on other registries,
   malformed ones included, can be stated. -/
def _load_models (registry : List DeviceProfile) : List DeviceModel :=
  registry.flatMap (fun models_ =>
    models_.models.map (fun model =>
      { name := model.name
        vendor_id := model.vendor_id
        product_id := model.product_id
        endpoint := model.endpoint }))

/- The matching test of the enumeration loops in verify_device_access and
   open_device: interface_number equals the endpoint and usage equals
   HID_USAGE_VALUE. -/
def interface_matches (endpoint : Nat) (interface : Interface) : Bool :=
  interface.interface_number == endpoint && interface.usage == HID_USAGE_VALUE

/- The body of the try block of DeviceManager.verify_device_access: walk
   the enumeration, and on the first matching interface open it by path and
   return True; an open failure raises out of the loop (error); no matching
   interface gives False. -/
def verify_device_access_body (t : Transport)
    (vendor_id product_id endpoint : Nat) : Except Unit Bool :=
  match (t.enumerate vendor_id product_id).find? (interface_matches endpoint) with
  | some interface => if t.open_path interface.path then .ok true else .error ()
  | none => .ok false

/- DeviceManager.verify_device_access: the except clause turns every
   exception of the body into False. -/
def verify_device_access (t : Transport)
    (vendor_id product_id endpoint : Nat) : Bool :=
  match verify_device_access_body t vendor_id product_id endpoint with
  | .ok b => b
  | .error _ => false

/- DeviceManager.open_device: raise DeviceNotFoundError when
   verify_device_access is false; otherwise open the first matching
   enumerated interface, turning an open failure into DeviceNotFoundError,
   and raise DeviceNotFoundError as well when no interface matches. -/
def open_device (t : Transport)
    (vendor_id product_id endpoint : Nat) : Except HIDError Unit :=
  if verify_device_access t vendor_id product_id endpoint then
    match (t.enumerate vendor_id product_id).find? (interface_matches endpoint) with
    | some interface =>
        if t.open_path interface.path then .ok ()
        else .error .deviceNotFoundError
    | none => .error .deviceNotFoundError
  else .error .deviceNotFoundError

/- HIDDevice.hid_write: build the outgoing buffer, then write it when the
   report type is the output type and raise InvalidHIDReportError otherwise
   (the buffer is returned so the written bytes can be observed).  With
   packet_length > 0 the source pads with [0x00] * (packet_length - 1 -
   len(data)), where a negative count yields the empty list, exactly as
   truncated subtraction does. -/
def hid_write (report_type report_id : Nat) (data : List Nat)
    (packet_length : Nat) : Except HIDError (List Nat) :=
  let bytes_ :=
    if packet_length > 0 then
      report_id :: (data ++ List.replicate (packet_length - 1 - data.length) 0)
    else
      report_id :: data
  if report_type == HID_REPORT_TYPE_OUTPUT then .ok bytes_
  else .error .invalidHIDReportError

/- DeviceManager.find_existing_model: scan the flattened model list in
   order and return the first model that verify_device_access accepts. -/
def find_existing_model (t : Transport) : List DeviceModel → Option DeviceModel
  | [] => none
  | model :: rest =>
    if verify_device_access t model.vendor_id model.product_id model.endpoint then
      some model
    else find_existing_model t rest

/- The profile lookup used by get_status: the first profile of the
   registry one of whose models has the given product id. -/
def find_profile_by_pid (registry : List DeviceProfile)
    (product_id : Nat) : Option DeviceProfile :=
  registry.find? (fun device_ =>
    device_.models.any (fun model_ => model_.product_id == product_id))

/- One attempt of BatteryStatus.get_status on one model with one battery
   profile: open_device, hid_write of the command with default report id
   and packet length 0, read response_length bytes, and on a response that
   is nonempty and long enough apply the decoding closures.  The except
   clause catches DeviceNotFoundError, InvalidHIDReportError and
   IndexError, and the finally clause closes the session whenever
   open_device returned one.  The result pairs the status update (none on
   any failure) with the event log of the attempt. -/
def run_attempt (t : Transport) (bp : BatteryLevelSpec)
    (m : DeviceModel) : Option StatusUpdate × List Event :=
  match open_device t m.vendor_id m.product_id m.endpoint with
  | .error _ => (none, [])
  | .ok _ =>
    match hid_write bp.report_type DEFAULT_REPORT_ID bp.command 0 with
    | .error _ =>
      (none, [.opened m.vendor_id m.product_id m.endpoint,
              .closed m.vendor_id m.product_id m.endpoint])
    | .ok bytes_ =>
      let data := t.read m.vendor_id m.product_id m.endpoint bp.response_length
      if data ≠ [] ∧ bp.response_length ≤ data.length then
        match bp.level data, bp.is_charging data with
        | some lvl, some chg =>
          (some { name := m.name, battery := lvl, charging := chg },
           [.opened m.vendor_id m.product_id m.endpoint,
            .wrote m.vendor_id m.product_id m.endpoint bytes_,
            .decoded data bp.response_length,
            .closed m.vendor_id m.product_id m.endpoint])
        | _, _ =>
          (none, [.opened m.vendor_id m.product_id m.endpoint,
                  .wrote m.vendor_id m.product_id m.endpoint bytes_,
                  .decoded data bp.response_length,
                  .closed m.vendor_id m.product_id m.endpoint])
      else
        (none, [.opened m.vendor_id m.product_id m.endpoint,
                .wrote m.vendor_id m.product_id m.endpoint bytes_,
                .closed m.vendor_id m.product_id m.endpoint])

/- The dictionary insertion of the profile_groups loop: append the model
   to the first group with the key, or append a new group at the end.
   Insertion order of keys is preserved, as for a Python dict. -/
def insert_group : List (String × List DeviceModel) → String → DeviceModel →
    List (String × List DeviceModel)
  | [], profile_name, model => [(profile_name, [model])]
  | (k, ms) :: rest, profile_name, model =>
    if k == profile_name then (k, ms ++ [model]) :: rest
    else (k, ms) :: insert_group rest profile_name model

/- The profile_groups construction of get_status: walk the flattened model
   list, skip every model whose product id equals that of the model already
   tried, look up the owning profile by product id, and when one is found
   file the model under that profile name. -/
def build_profile_groups (registry : List DeviceProfile)
    (existing_model : DeviceModel) : List (String × List DeviceModel) :=
  (_load_models registry).foldl (fun profile_groups model =>
    if model.product_id == existing_model.product_id then profile_groups
    else
      match find_profile_by_pid registry model.product_id with
      | none => profile_groups
      | some device_profile => insert_group profile_groups device_profile.name model) []

/- The inner loop of the fallback cascade: try the models of one group in
   order, stopping at the first successful attempt.  Event logs of the
   attempts made are concatenated. -/
def run_models (t : Transport) (bp : BatteryLevelSpec) :
    List DeviceModel → Option StatusUpdate × List Event
  | [] => (none, [])
  | model :: rest =>
    match run_attempt t bp model with
    | (some upd, evs) => (some upd, evs)
    | (none, evs) =>
      let r := run_models t bp rest
      (r.fst, evs ++ r.snd)

/- The outer loop of the fallback cascade: for each group look the profile
   up again by name (next without a default in the source; the lookup
   cannot miss for groups built by build_profile_groups) and try the models
   of the group. -/
def run_groups (t : Transport) (registry : List DeviceProfile) :
    List (String × List DeviceModel) → Option StatusUpdate × List Event
  | [] => (none, [])
  | (profile_name, models) :: rest =>
    match registry.find? (fun device_ => device_.name == profile_name) with
    | none => run_groups t registry rest
    | some device_profile =>
      match run_models t device_profile.battery_level models with
      | (some upd, evs) => (some upd, evs)
      | (none, evs) =>
        let r := run_groups t registry rest
        (r.fst, evs ++ r.snd)

/- The sentinel DeviceStatus that get_status initialises status with. -/
def no_device_found : DeviceStatus :=
  { name := "No device found", battery := none, charging := none }

/- The primary attempt of get_status: locate the owning profile of the
   cached model by product id; when none is found the primary block is
   skipped, otherwise the attempt is run on the cached model. -/
def primary_result (t : Transport) (registry : List DeviceProfile)
    (existing_model : DeviceModel) : Option StatusUpdate × List Event :=
  match find_profile_by_pid registry existing_model.product_id with
  | none => (none, [])
  | some device_profile => run_attempt t device_profile.battery_level existing_model

/- BatteryStatus.get_status.  exists_model is the resolution the manager
   cached at construction time; it is a parameter because it was computed
   against the transport state of an earlier moment.  The result pairs the
   returned DeviceStatus with the event log of the whole call. -/
def get_status (t : Transport) (registry : List DeviceProfile)
    (exists_model : Option DeviceModel) : DeviceStatus × List Event :=
  match exists_model with
  | none => (no_device_found, [])
  | some existing_model =>
    match primary_result t registry existing_model with
    | (some upd, evs) =>
      ({ name := upd.name, battery := some upd.battery, charging := some upd.charging }, evs)
    | (none, evs) =>
      match run_groups t registry (build_profile_groups registry existing_model) with
      | (some upd, evs2) =>
        ({ name := upd.name, battery := some upd.battery, charging := some upd.charging },
         evs ++ evs2)
      | (none, evs2) => (no_device_found, evs ++ evs2)

/- DeviceManager construction: models is the flattened registry and
   exists_model is find_existing_model run against the transport state at
   construction time. -/
structure DeviceManager where
  models : List DeviceModel
  exists_model : Option DeviceModel

def DeviceManager.construct (t : Transport) (registry : List DeviceProfile) : DeviceManager :=
  { models := _load_models registry
    exists_model := find_existing_model t (_load_models registry) }

/- ------------------------------------------------------------------ -/
/- Specification-side helpers used only in theorem statements.        -/
/- ------------------------------------------------------------------ -/

/- The interfaces of an enumeration that match the endpoint and the HID
   usage class. -/
def matching_interfaces (t : Transport)
    (vendor_id product_id endpoint : Nat) : List Interface :=
  (t.enumerate vendor_id product_id).filter (interface_matches endpoint)

/- Keep the first occurrence of every element, in order of first
   occurrence. -/
def erase_dups_first : List String → List String
  | [] => []
  | x :: xs => x :: erase_dups_first (xs.filter (fun y => y ≠ x))
termination_by l => l.length
decreasing_by
  simp only [List.length_cons]
  exact Nat.lt_succ_of_le (List.length_filter_le _ _)

/- The candidate a model of the flattened registry contributes to the
   fallback cascade: skipped when its product id equals that of the model
   already tried, otherwise the model tagged with the name of its owning
   profile (the first profile containing its product id), skipped as well
   when no profile owns it. -/
def cascade_candidate (registry : List DeviceProfile) (existing_model : DeviceModel)
    (model : DeviceModel) : Option (String × DeviceModel) :=
  if model.product_id == existing_model.product_id then none
  else
    match find_profile_by_pid registry model.product_id with
    | none => none
    | some device_profile => some (device_profile.name, model)

/- All cascade candidates in registry order. -/
def cascade_candidates (registry : List DeviceProfile)
    (existing_model : DeviceModel) : List (String × DeviceModel) :=
  (_load_models registry).filterMap (cascade_candidate registry existing_model)

/- Grouping of tagged candidates by their tag: one group per tag in order
   of first occurrence, each holding its candidates in their original
   order. -/
def groups_of (cands : List (String × DeviceModel)) :
    List (String × List DeviceModel) :=
  (erase_dups_first (cands.map Prod.fst)).map (fun n =>
    (n, (cands.filter (fun c => c.fst == n)).map Prod.snd))

/- The outcome of every cascade attempt in cascade order (groups in order,
   models of a group in order), each model attempted against the profile
   looked up by the group name. -/
def attempt_outcomes (t : Transport) (registry : List DeviceProfile)
    (groups : List (String × List DeviceModel)) :
    List (Option StatusUpdate × List Event) :=
  groups.flatMap (fun g =>
    match registry.find? (fun device_ => device_.name == g.fst) with
    | none => []
    | some device_profile =>
      g.snd.map (fun model => run_attempt t device_profile.battery_level model))

/- Short-circuit over a list of attempt outcomes: the first success wins
   and only the attempts up to and including it contribute events. -/
def first_success : List (Option StatusUpdate × List Event) →
    Option StatusUpdate × List Event
  | [] => (none, [])
  | (some upd, evs) :: _ => (some upd, evs)
  | (none, evs) :: rest =>
    let r := first_success rest
    (r.fst, evs ++ r.snd)

/- True when the flattened registry has pairwise distinct product ids. -/
def distinct_pids : List DeviceModel → Bool
  | [] => true
  | m :: rest =>
    rest.all (fun m2 => m2.product_id != m.product_id) && distinct_pids rest

/- The open and close events of a log. -/
def is_open_close_event : Event → Bool
  | .opened _ _ _ => true
  | .closed _ _ _ => true
  | _ => false

def open_close_events (evs : List Event) : List Event :=
  evs.filter is_open_close_event

/- True when the events form a sequence of immediately closed sessions:
   every open is followed by the close of the same device and nothing is
   left open at the end. -/
def sessions_paired : List Event → Bool
  | [] => true
  | .opened v p e :: .closed v2 p2 e2 :: rest =>
    v == v2 && p == p2 && e == e2 && sessions_paired rest
  | _ => false

def is_decoded_event : Event → Bool
  | .decoded _ _ => true
  | _ => false

def is_wrote_event : Event → Bool
  | .wrote _ _ _ _ => true
  | _ => false

/- Modelled from the spec: loading the registry must fail fast when the
   registry is malformed, for example a response length of zero or a
   profile with no variants (src has no such check; section 4.1 of the
   design demands it). -/
def malformed_registry (registry : List DeviceProfile) : Bool :=
  registry.any (fun device_ =>
    device_.battery_level.response_length == 0 || device_.models.isEmpty)

/- Modelled from the spec: a loader that refuses malformed registries and
   otherwise yields what _load_models yields. -/
def load_models_spec (registry : List DeviceProfile) :
    Except Unit (List DeviceModel) :=
  if malformed_registry registry then .error () else .ok (_load_models registry)

/- A malformed registry: no variants and a response length of zero. -/
def bad_profile_entry : DeviceProfile :=
  { name := "bad"
    models := []
    battery_level :=
      { report_type := HID_REPORT_TYPE_OUTPUT
        command := []
        response_length := 0
        is_charging := fun _ => none
        level := fun _ => none } }

/- The reading of claim C5 taken from the words of the spec: the probe is
   true exactly when some matching interface opens successfully. -/
def verify_device_access_spec (t : Transport)
    (vendor_id product_id endpoint : Nat) : Bool :=
  (matching_interfaces t vendor_id product_id endpoint).any
    (fun interface => t.open_path interface.path)

/- ------------------------------------------------------------------ -/
/- Concrete transport environments for witnesses and counterexamples. -/
/- ------------------------------------------------------------------ -/

/- Two matching interfaces; the first fails to open, the second opens. -/
def t_two_interfaces : Transport :=
  { enumerate := fun _ _ => [{ path := 0, interface_number := 0, usage := 1 },
                             { path := 1, interface_number := 0, usage := 1 }]
    open_path := fun path => path == 1
    read := fun _ _ _ _ => [] }

/- The wired variant enumerates but fails to open; the wireless variant
   opens and answers the battery query with [42, 0, 1]. -/
def t_wired_dead : Transport :=
  { enumerate := fun vendor_id product_id =>
      if vendor_id == 0x1038 && product_id == 0x172B then
        [{ path := 0, interface_number := 0, usage := 1 }]
      else if vendor_id == 0x1038 && product_id == 0x1726 then
        [{ path := 1, interface_number := 0, usage := 1 }]
      else []
    open_path := fun path => path == 1
    read := fun _ product_id _ _ =>
      if product_id == 0x1726 then [42, 0, 1] else [] }

/- Every device opens but every read yields nothing. -/
def t_reads_empty : Transport :=
  { enumerate := fun _ _ => [{ path := 0, interface_number := 0, usage := 1 }]
    open_path := fun _ => true
    read := fun _ _ _ _ => [] }

/- ------------------------------------------------------------------ -/
/- Helper lemmas.                                                     -/
/- ------------------------------------------------------------------ -/

lemma hid_write_output (report_id : Nat) (data : List Nat) (packet_length : Nat) :
    hid_write HID_REPORT_TYPE_OUTPUT report_id data packet_length =
      .ok (if packet_length > 0 then
            report_id :: (data ++ List.replicate (packet_length - 1 - data.length) 0)
          else report_id :: data) := by
  simp [hid_write]

lemma hid_write_invalid (report_type report_id : Nat) (data : List Nat)
    (packet_length : Nat) (h : report_type ≠ HID_REPORT_TYPE_OUTPUT) :
    hid_write report_type report_id data packet_length = .error .invalidHIDReportError := by
  simp [hid_write, h]

/- ------------------------------------------------------------------ -/
/- Claims about write_report.                                         -/
/- ------------------------------------------------------------------ -/

/-- C7: write_report (hid_write) builds the outgoing buffer as one
report-id byte, then the payload bytes, then zero-padding when
packet_length > 0, and no padding when packet_length is 0; in particular,
with packet_length = 5, report_id = 0x00 and payload = 0xAA 0x01 it writes
exactly the byte sequence 0x00 0xAA 0x01 0x00 0x00. -/
theorem c7_write_report_buffer :
    ∀ (report_id : Nat) (data : List Nat),
      (∀ packet_length : Nat, 0 < packet_length →
        hid_write HID_REPORT_TYPE_OUTPUT report_id data packet_length =
          .ok (report_id :: (data ++ List.replicate (packet_length - 1 - data.length) 0)))
      ∧ hid_write HID_REPORT_TYPE_OUTPUT report_id data 0 = .ok (report_id :: data)
      ∧ hid_write HID_REPORT_TYPE_OUTPUT 0x00 [0xAA, 0x01] 5 =
          .ok [0x00, 0xAA, 0x01, 0x00, 0x00] := by
  intro report_id data
  refine ⟨fun packet_length h => ?_, ?_, ?_⟩
  · rw [hid_write_output, if_pos h]
  · rw [hid_write_output, if_neg (by omega)]
  · rfl

/-- Witness for C7 at packet_length = 5, report_id = 0, payload 0xAA 0x01. -/
theorem c7_write_report_buffer_witness :
    hid_write HID_REPORT_TYPE_OUTPUT 0x00 [0xAA, 0x01] 5 =
      .ok (0x00 :: ([0xAA, 0x01] ++ List.replicate (5 - 1 - [0xAA, 0x01].length) 0)) :=
  (c7_write_report_buffer 0x00 [0xAA, 0x01]).1 5 (by omega)

/-- C8: for every report kind other than the single supported output-report
kind, write_report (hid_write) fails with InvalidHIDReport and performs no
write to the device (no write event appears in an attempt whose profile
carries such a report kind, and the attempt fails). -/
theorem c8_invalid_report_kind :
    (∀ (report_type report_id : Nat) (data : List Nat) (packet_length : Nat),
        report_type ≠ HID_REPORT_TYPE_OUTPUT →
        hid_write report_type report_id data packet_length = .error .invalidHIDReportError)
    ∧ (∀ (t : Transport) (bp : BatteryLevelSpec) (m : DeviceModel),
        bp.report_type ≠ HID_REPORT_TYPE_OUTPUT →
        (run_attempt t bp m).fst = none
        ∧ (run_attempt t bp m).snd.filter is_wrote_event = []) := by
  constructor
  · exact fun report_type report_id data packet_length h =>
      hid_write_invalid report_type report_id data packet_length h
  · intro t bp m h
    unfold run_attempt
    cases open_device t m.vendor_id m.product_id m.endpoint with
    | error e => simp
    | ok u =>
      rw [hid_write_invalid bp.report_type DEFAULT_REPORT_ID bp.command 0 h]
      simp [is_wrote_event]

/-- Witness for C8 at report kind 0x01 and a profile carrying that kind. -/
theorem c8_invalid_report_kind_witness :
    hid_write 0x01 0x00 [0xAA, 0x01] 0 = .error .invalidHIDReportError
    ∧ ((run_attempt t_reads_empty
          { report_type := 0x01, command := [0xAA, 0x01], response_length := 3,
            is_charging := fun _ => none, level := fun _ => none }
          rival650_wired).fst = none
       ∧ (run_attempt t_reads_empty
            { report_type := 0x01, command := [0xAA, 0x01], response_length := 3,
              is_charging := fun _ => none, level := fun _ => none }
            rival650_wired).snd.filter is_wrote_event = []) :=
  ⟨c8_invalid_report_kind.1 0x01 0x00 [0xAA, 0x01] 0 (by decide),
   c8_invalid_report_kind.2 t_reads_empty
     { report_type := 0x01, command := [0xAA, 0x01], response_length := 3,
       is_charging := fun _ => none, level := fun _ => none }
     rival650_wired (by decide)⟩

/-- C10 (implicit): for every call to hid_write with packet_length > 0 and
a payload longer than packet_length - 1 bytes, the written buffer is
exactly the report-id byte followed by the full payload, with neither
truncation nor padding, so the written buffer has length
max packet_length (1 + payload length), which can exceed packet_length. -/
theorem c10_overlong_payload :
    ∀ (report_id : Nat) (data : List Nat) (packet_length : Nat),
      0 < packet_length → packet_length - 1 < data.length →
      hid_write HID_REPORT_TYPE_OUTPUT report_id data packet_length =
        .ok (report_id :: data)
      ∧ (report_id :: data).length = max packet_length (1 + data.length) := by
  intro report_id data packet_length hpos hlong
  have h0 : packet_length - 1 - data.length = 0 := by omega
  constructor
  · rw [hid_write_output, if_pos hpos, h0]
    simp
  · simp [List.length_cons]
    omega

/-- Witness for C10 at report_id = 7, payload of three bytes, packet_length
= 2. -/
theorem c10_overlong_payload_witness :
    hid_write HID_REPORT_TYPE_OUTPUT 7 [1, 2, 3] 2 = .ok [7, 1, 2, 3]
    ∧ ([7, 1, 2, 3] : List Nat).length = max 2 (1 + [1, 2, 3].length) :=
  c10_overlong_payload 7 [1, 2, 3] 2 (by omega) (by decide)

/- ------------------------------------------------------------------ -/
/- Claims about verify_device_access and registry loading.            -/
/- ------------------------------------------------------------------ -/

/-- C5, counterexample: with two matching interfaces of which only the
second opens, the source probe returns false, although a matching
interface opens successfully, so it is not the case that the probe returns
false only when no matching interface exists or every matching interface
fails to open. -/
theorem c5_verify_counterexample :
    verify_device_access t_two_interfaces 0x1038 0x1726 0 = false
    ∧ matching_interfaces t_two_interfaces 0x1038 0x1726 0 ≠ []
    ∧ (matching_interfaces t_two_interfaces 0x1038 0x1726 0).any
        (fun interface => t_two_interfaces.open_path interface.path) = true
    ∧ verify_device_access_spec t_two_interfaces 0x1038 0x1726 0 = true := by
  decide

/-- C5, amended: can_access (verify_device_access) never raises — every
transport exception becomes the result false — and it returns true exactly
when the first enumerated interface matching the endpoint and usage class
opens successfully; it returns false when no interface matches or when
that first matching interface fails to open, and later matching interfaces
are never probed because the open failure is an exception that aborts the
scan. -/
theorem c5_verify_first_match_only :
    ∀ (t : Transport) (vendor_id product_id endpoint : Nat),
      (verify_device_access_body t vendor_id product_id endpoint = .error () →
        verify_device_access t vendor_id product_id endpoint = false)
      ∧ (verify_device_access t vendor_id product_id endpoint = true ↔
          ∃ interface,
            (t.enumerate vendor_id product_id).find? (interface_matches endpoint) =
              some interface
            ∧ t.open_path interface.path = true) := by
  intro t vendor_id product_id endpoint
  cases hf : (t.enumerate vendor_id product_id).find? (interface_matches endpoint) with
  | none =>
    constructor
    · intro h
      simp [verify_device_access_body, hf] at h
    · simp [verify_device_access, verify_device_access_body, hf]
  | some interface =>
    have hval : verify_device_access t vendor_id product_id endpoint =
        t.open_path interface.path := by
      unfold verify_device_access verify_device_access_body
      rw [hf]
      by_cases ho : t.open_path interface.path = true
      · simp [ho]
      · simp [ho]
    constructor
    · intro h
      rw [hval]
      by_cases ho : t.open_path interface.path = true
      · unfold verify_device_access_body at h
        rw [hf] at h
        simp [ho] at h
      · simpa using ho
    · rw [hval]
      constructor
      · intro ho
        exact ⟨interface, rfl, ho⟩
      · rintro ⟨i, hi, hoi⟩
        cases hi
        exact hoi

/-- Witness for C5 amended: at the two-interface transport the body raises
and the probe folds the exception into false. -/
theorem c5_verify_first_match_only_witness :
    verify_device_access t_two_interfaces 0x1038 0x1726 0 = false :=
  (c5_verify_first_match_only t_two_interfaces 0x1038 0x1726 0).1 rfl

/-- C6, counterexample: the malformed registry consisting of one profile
with no variants and a response length of zero loads without any error,
while the loader demanded by the design would refuse it. -/
theorem c6_load_counterexample :
    _load_models [bad_profile_entry] = []
    ∧ malformed_registry [bad_profile_entry] = true
    ∧ load_models_spec [bad_profile_entry] = .error () :=
  ⟨rfl, rfl, rfl⟩

/-- C6, amended: loading performs no configuration-integrity check at all:
for every registry, malformed ones included, _load_models returns the
plain concatenation of the profiles' variant lists, and the malformed
example registry loads successfully to the empty list. -/
theorem c6_load_no_validation :
    (∀ registry : List DeviceProfile,
      _load_models registry = (registry.map DeviceProfile.models).flatten)
    ∧ _load_models [bad_profile_entry] = [] := by
  constructor
  · intro registry
    induction registry with
    | nil => rfl
    | cons d rest ih =>
      simp only [_load_models, List.flatMap_cons, List.map_cons, List.flatten_cons] at *
      rw [ih]
      show List.map id d.models ++ (List.map DeviceProfile.models rest).flatten =
        d.models ++ (List.map DeviceProfile.models rest).flatten
      rw [List.map_id]
  · rfl

/- ------------------------------------------------------------------ -/
/- Claim about find_existing_model.                                   -/
/- ------------------------------------------------------------------ -/

/-- C9: find_existing_model scans the registry in its fixed order and
returns the first variant for which the access probe is true, and returns
none when no variant is accessible; when several variants are accessible
simultaneously, the lowest-registry-order one is returned (everything
before the returned variant is inaccessible). -/
theorem c9_find_existing_model_first :
    ∀ (t : Transport) (models : List DeviceModel),
      (find_existing_model t models = none ↔
        ∀ m ∈ models,
          verify_device_access t m.vendor_id m.product_id m.endpoint = false)
      ∧ (∀ m, find_existing_model t models = some m →
          verify_device_access t m.vendor_id m.product_id m.endpoint = true
          ∧ ∃ l1 l2, models = l1 ++ m :: l2
            ∧ ∀ x ∈ l1,
                verify_device_access t x.vendor_id x.product_id x.endpoint = false) := by
  intro t models
  induction models with
  | nil =>
    refine ⟨by simp [find_existing_model], ?_⟩
    intro m h
    simp [find_existing_model] at h
  | cons hd tl ih =>
    by_cases hv : verify_device_access t hd.vendor_id hd.product_id hd.endpoint = true
    · refine ⟨?_, ?_⟩
      · simp [find_existing_model, hv]
      · intro m h
        simp only [find_existing_model, if_pos hv] at h
        cases h
        exact ⟨hv, [], tl, rfl, by simp⟩
    · have hv' : verify_device_access t hd.vendor_id hd.product_id hd.endpoint = false := by
        simpa using hv
      refine ⟨?_, ?_⟩
      · simp only [find_existing_model, if_neg hv]
        rw [ih.1]
        constructor
        · intro h m hm
          rcases List.mem_cons.mp hm with h1 | h1
          · subst h1; exact hv'
          · exact h m h1
        · intro h m hm
          exact h m (List.mem_cons_of_mem hd hm)
      · intro m h
        simp only [find_existing_model, if_neg hv] at h
        obtain ⟨hver, l1, l2, heq, hall⟩ := ih.2 m h
        refine ⟨hver, hd :: l1, l2, by simp [heq], ?_⟩
        intro x hx
        rcases List.mem_cons.mp hx with h1 | h1
        · subst h1; exact hv'
        · exact hall x h1

/-- Witness for C9: with the wired variant inaccessible and the wireless
variant accessible, the scan of the real registry returns the wireless
variant and everything listed before it is inaccessible. -/
theorem c9_find_existing_model_first_witness :
    verify_device_access t_wired_dead rival650_wireless.vendor_id
      rival650_wireless.product_id rival650_wireless.endpoint = true
    ∧ ∃ l1 l2, _load_models profile = l1 ++ rival650_wireless :: l2
      ∧ ∀ x ∈ l1,
          verify_device_access t_wired_dead x.vendor_id x.product_id x.endpoint = false :=
  (c9_find_existing_model_first t_wired_dead (_load_models profile)).2
    rival650_wireless (by decide)

/- ------------------------------------------------------------------ -/
/- Lemmas about single attempts and the cascade loops.                -/
/- ------------------------------------------------------------------ -/

lemma run_attempt_insufficient (t : Transport) (bp : BatteryLevelSpec) (m : DeviceModel)
    (h : t.read m.vendor_id m.product_id m.endpoint bp.response_length = [] ∨
      (t.read m.vendor_id m.product_id m.endpoint bp.response_length).length <
        bp.response_length) :
    (run_attempt t bp m).fst = none
    ∧ (run_attempt t bp m).snd.filter is_decoded_event = [] := by
  simp only [run_attempt]
  cases hod : open_device t m.vendor_id m.product_id m.endpoint with
  | error e => simp
  | ok u =>
    cases hw : hid_write bp.report_type DEFAULT_REPORT_ID bp.command 0 with
    | error e => simp [is_decoded_event]
    | ok bytes_ =>
      have hcond : ¬ (t.read m.vendor_id m.product_id m.endpoint bp.response_length ≠ [] ∧
          bp.response_length ≤
            (t.read m.vendor_id m.product_id m.endpoint bp.response_length).length) := by
        rcases h with h | h
        · intro hc
          exact hc.1 h
        · intro hc
          omega
      simp only []
      rw [if_neg hcond]
      simp [is_decoded_event]

lemma run_models_fst_none (t : Transport) (bp : BatteryLevelSpec)
    (models : List DeviceModel)
    (h : ∀ model ∈ models, (run_attempt t bp model).fst = none) :
    (run_models t bp models).fst = none := by
  induction models with
  | nil => rfl
  | cons m rest ih =>
    simp only [run_models]
    cases hr : run_attempt t bp m with
    | mk o evs =>
      have ho : o = none := by
        have := h m (by simp)
        rwa [hr] at this
      subst ho
      exact ih (fun model hm => h model (List.mem_cons_of_mem m hm))

lemma run_groups_fst_none (t : Transport) (registry : List DeviceProfile)
    (h : ∀ (bp : BatteryLevelSpec) (m : DeviceModel), (run_attempt t bp m).fst = none) :
    ∀ gs, (run_groups t registry gs).fst = none := by
  intro gs
  induction gs with
  | nil => rfl
  | cons g rest ih =>
    obtain ⟨n, ms⟩ := g
    simp only [run_groups]
    cases hf : registry.find? (fun device_ => device_.name == n) with
    | none => exact ih
    | some dp =>
      simp only []
      cases hr : run_models t dp.battery_level ms with
      | mk o evs =>
        have ho : o = none := by
          have := run_models_fst_none t dp.battery_level ms (fun model _ => h _ model)
          rwa [hr] at this
        subst ho
        exact ih

/- ------------------------------------------------------------------ -/
/- Claim C1: totality and sentinel behaviour of get_status.           -/
/- ------------------------------------------------------------------ -/

/-- C1: get_status is total: it is a plain function into DeviceStatus for
every transport behaviour, all modelled device-missing exceptions being
caught inside it; when the cached resolved variant is none it returns the
sentinel immediately (doing nothing else), and when every read is
insufficient, so that every candidate is exhausted, it returns the same
sentinel. -/
theorem c1_get_status_total :
    ∀ (t : Transport) (registry : List DeviceProfile),
      get_status t registry none = (no_device_found, [])
      ∧ ∀ exists_model : Option DeviceModel,
          (∀ vendor_id product_id endpoint response_length : Nat,
            t.read vendor_id product_id endpoint response_length = [] ∨
            (t.read vendor_id product_id endpoint response_length).length <
              response_length) →
          (get_status t registry exists_model).fst = no_device_found := by
  intro t registry
  constructor
  · rfl
  · intro exists_model h
    have hatt : ∀ (bp : BatteryLevelSpec) (m : DeviceModel),
        (run_attempt t bp m).fst = none :=
      fun bp m => (run_attempt_insufficient t bp m (h _ _ _ _)).1
    cases exists_model with
    | none => rfl
    | some existing_model =>
      simp only [get_status]
      have hprim : (primary_result t registry existing_model).fst = none := by
        simp only [primary_result]
        cases hf : find_profile_by_pid registry existing_model.product_id with
        | none => rfl
        | some dp => exact hatt _ _
      cases hp : primary_result t registry existing_model with
      | mk o evs =>
        have ho : o = none := by rwa [hp] at hprim
        subst ho
        cases hg : run_groups t registry (build_profile_groups registry existing_model) with
        | mk o2 evs2 =>
          have ho2 : o2 = none := by
            have := run_groups_fst_none t registry hatt
              (build_profile_groups registry existing_model)
            rwa [hg] at this
          subst ho2
          rfl

/-- Witness for C1: with a transport whose every read yields nothing, the
real registry and the cached wired variant, get_status returns the
sentinel. -/
theorem c1_get_status_total_witness :
    (get_status t_reads_empty profile (some rival650_wired)).fst = no_device_found :=
  (c1_get_status_total t_reads_empty profile).2 (some rival650_wired)
    (fun vendor_id product_id endpoint response_length => Or.inl rfl)

/- ------------------------------------------------------------------ -/
/- Claim C4: every session opened by an attempt is closed once.       -/
/- ------------------------------------------------------------------ -/

lemma open_close_events_append (a b : List Event) :
    open_close_events (a ++ b) = open_close_events a ++ open_close_events b :=
  List.filter_append _ _

lemma sessions_paired_cons2 (v p e : Nat) (rest : List Event) :
    sessions_paired (.opened v p e :: .closed v p e :: rest) = sessions_paired rest := by
  simp [sessions_paired]

lemma run_attempt_oce (t : Transport) (bp : BatteryLevelSpec) (m : DeviceModel) :
    open_close_events (run_attempt t bp m).snd = []
    ∨ open_close_events (run_attempt t bp m).snd =
        [.opened m.vendor_id m.product_id m.endpoint,
         .closed m.vendor_id m.product_id m.endpoint] := by
  simp only [run_attempt]
  cases hod : open_device t m.vendor_id m.product_id m.endpoint with
  | error e =>
    left
    rfl
  | ok u =>
    cases hw : hid_write bp.report_type DEFAULT_REPORT_ID bp.command 0 with
    | error e =>
      right
      simp [open_close_events, is_open_close_event]
    | ok bytes_ =>
      simp only []
      by_cases hc : t.read m.vendor_id m.product_id m.endpoint bp.response_length ≠ [] ∧
          bp.response_length ≤
            (t.read m.vendor_id m.product_id m.endpoint bp.response_length).length
      · rw [if_pos hc]
        cases bp.level (t.read m.vendor_id m.product_id m.endpoint bp.response_length) with
        | none =>
          right
          simp [open_close_events, is_open_close_event]
        | some lvl =>
          cases bp.is_charging (t.read m.vendor_id m.product_id m.endpoint bp.response_length) with
          | none =>
            right
            simp [open_close_events, is_open_close_event]
          | some chg =>
            right
            simp [open_close_events, is_open_close_event]
      · rw [if_neg hc]
        right
        simp [open_close_events, is_open_close_event]

lemma sessions_paired_append : ∀ (a b : List Event),
    sessions_paired a = true → sessions_paired b = true →
    sessions_paired (a ++ b) = true
  | [], b, _, hb => by simpa using hb
  | [x], b, ha, hb => by
    cases x <;> simp [sessions_paired] at ha
  | x :: y :: rest, b, ha, hb => by
    cases x with
    | closed v p e => simp [sessions_paired] at ha
    | wrote v p e bs => simp [sessions_paired] at ha
    | decoded d rl => simp [sessions_paired] at ha
    | opened v p e =>
      cases y with
      | opened v2 p2 e2 => simp [sessions_paired] at ha
      | wrote v2 p2 e2 bs => simp [sessions_paired] at ha
      | decoded d rl => simp [sessions_paired] at ha
      | closed v2 p2 e2 =>
        simp only [sessions_paired, Bool.and_eq_true, beq_iff_eq] at ha
        obtain ⟨⟨⟨h1, h2⟩, h3⟩, h4⟩ := ha
        subst h1
        subst h2
        subst h3
        show sessions_paired (.opened v p e :: .closed v p e :: (rest ++ b)) = true
        rw [sessions_paired_cons2]
        exact sessions_paired_append rest b h4 hb

lemma paired_block_append (evs l : List Event) (v p e : Nat)
    (h : open_close_events evs = []
      ∨ open_close_events evs = [.opened v p e, .closed v p e])
    (hl : sessions_paired l = true) :
    sessions_paired (open_close_events evs ++ l) = true := by
  rcases h with h | h <;> rw [h]
  · simpa using hl
  · show sessions_paired (.opened v p e :: .closed v p e :: l) = true
    rw [sessions_paired_cons2]
    exact hl

lemma run_models_paired (t : Transport) (bp : BatteryLevelSpec) (ms : List DeviceModel) :
    sessions_paired (open_close_events (run_models t bp ms).snd) = true := by
  induction ms with
  | nil => rfl
  | cons m rest ih =>
    simp only [run_models]
    cases hr : run_attempt t bp m with
    | mk o evs =>
      have hoce := run_attempt_oce t bp m
      rw [hr] at hoce
      cases o with
      | some upd =>
        have := paired_block_append evs [] m.vendor_id m.product_id m.endpoint hoce rfl
        simpa using this
      | none =>
        show sessions_paired (open_close_events (evs ++ (run_models t bp rest).snd)) = true
        rw [open_close_events_append]
        exact paired_block_append _ _ _ _ _ hoce ih

lemma run_groups_paired (t : Transport) (registry : List DeviceProfile)
    (gs : List (String × List DeviceModel)) :
    sessions_paired (open_close_events (run_groups t registry gs).snd) = true := by
  induction gs with
  | nil => rfl
  | cons g rest ih =>
    obtain ⟨n, ms⟩ := g
    simp only [run_groups]
    cases hf : registry.find? (fun device_ => device_.name == n) with
    | none => exact ih
    | some dp =>
      simp only []
      cases hr : run_models t dp.battery_level ms with
      | mk o evs =>
        have hmp := run_models_paired t dp.battery_level ms
        rw [hr] at hmp
        cases o with
        | some upd => exact hmp
        | none =>
          show sessions_paired
            (open_close_events (evs ++ (run_groups t registry rest).snd)) = true
          rw [open_close_events_append]
          exact sessions_paired_append _ _ hmp ih

lemma primary_result_oce (t : Transport) (registry : List DeviceProfile)
    (existing_model : DeviceModel) :
    open_close_events (primary_result t registry existing_model).snd = []
    ∨ open_close_events (primary_result t registry existing_model).snd =
        [.opened existing_model.vendor_id existing_model.product_id existing_model.endpoint,
         .closed existing_model.vendor_id existing_model.product_id existing_model.endpoint] := by
  simp only [primary_result]
  cases hf : find_profile_by_pid registry existing_model.product_id with
  | none =>
    left
    rfl
  | some dp => exact run_attempt_oce t dp.battery_level existing_model

/-- C4: in every invocation of get_status, each session that open_device
successfully returns is closed exactly once before the attempt that opened
it ends (the open and close events of the log pair up immediately, attempt
by attempt, on every exit path), and no session remains open when
get_status returns. -/
theorem c4_sessions_closed_exactly_once :
    ∀ (t : Transport) (registry : List DeviceProfile)
      (exists_model : Option DeviceModel),
      sessions_paired (open_close_events (get_status t registry exists_model).snd) = true := by
  intro t registry exists_model
  cases exists_model with
  | none => rfl
  | some existing_model =>
    simp only [get_status]
    cases hp : primary_result t registry existing_model with
    | mk o evs =>
      have hoce := primary_result_oce t registry existing_model
      rw [hp] at hoce
      cases o with
      | some upd =>
        have := paired_block_append evs []
          existing_model.vendor_id existing_model.product_id existing_model.endpoint hoce rfl
        simpa using this
      | none =>
        simp only []
        cases hg : run_groups t registry (build_profile_groups registry existing_model) with
        | mk o2 evs2 =>
          have hgp := run_groups_paired t registry (build_profile_groups registry existing_model)
          rw [hg] at hgp
          cases o2 with
          | some upd =>
            show sessions_paired (open_close_events (evs ++ evs2)) = true
            rw [open_close_events_append]
            exact paired_block_append _ _ _ _ _ hoce hgp
          | none =>
            show sessions_paired (open_close_events (evs ++ evs2)) = true
            rw [open_close_events_append]
            exact paired_block_append _ _ _ _ _ hoce hgp

/- ------------------------------------------------------------------ -/
/- Claim C3: short responses are never decoded.                       -/
/- ------------------------------------------------------------------ -/

lemma run_attempt_decoded (t : Transport) (bp : BatteryLevelSpec) (m : DeviceModel)
    (d : List Nat) (rl : Nat)
    (h : Event.decoded d rl ∈ (run_attempt t bp m).snd) :
    d ≠ [] ∧ rl ≤ d.length := by
  simp only [run_attempt] at h
  cases hod : open_device t m.vendor_id m.product_id m.endpoint with
  | error e =>
    rw [hod] at h
    simp at h
  | ok u =>
    rw [hod] at h
    cases hw : hid_write bp.report_type DEFAULT_REPORT_ID bp.command 0 with
    | error e =>
      rw [hw] at h
      simp at h
    | ok bytes_ =>
      rw [hw] at h
      simp only [] at h
      by_cases hc : t.read m.vendor_id m.product_id m.endpoint bp.response_length ≠ [] ∧
          bp.response_length ≤
            (t.read m.vendor_id m.product_id m.endpoint bp.response_length).length
      · rw [if_pos hc] at h
        cases hl : bp.level (t.read m.vendor_id m.product_id m.endpoint bp.response_length) with
        | none =>
          rw [hl] at h
          simp at h
          obtain ⟨hd, hrl⟩ := h
          subst hd
          subst hrl
          exact hc
        | some lvl =>
          rw [hl] at h
          cases hch : bp.is_charging
              (t.read m.vendor_id m.product_id m.endpoint bp.response_length) with
          | none =>
            rw [hch] at h
            simp at h
            obtain ⟨hd, hrl⟩ := h
            subst hd
            subst hrl
            exact hc
          | some chg =>
            rw [hch] at h
            simp at h
            obtain ⟨hd, hrl⟩ := h
            subst hd
            subst hrl
            exact hc
      · rw [if_neg hc] at h
        simp at h

lemma run_models_decoded (t : Transport) (bp : BatteryLevelSpec)
    (ms : List DeviceModel) (d : List Nat) (rl : Nat)
    (h : Event.decoded d rl ∈ (run_models t bp ms).snd) :
    d ≠ [] ∧ rl ≤ d.length := by
  induction ms with
  | nil => simp [run_models] at h
  | cons m rest ih =>
    simp only [run_models] at h
    cases hr : run_attempt t bp m with
    | mk o evs =>
      rw [hr] at h
      cases o with
      | some upd =>
        apply run_attempt_decoded t bp m d rl
        rw [hr]
        exact h
      | none =>
        simp only [] at h
        rcases List.mem_append.mp h with h1 | h1
        · apply run_attempt_decoded t bp m d rl
          rw [hr]
          exact h1
        · exact ih h1

lemma run_groups_decoded (t : Transport) (registry : List DeviceProfile)
    (gs : List (String × List DeviceModel)) (d : List Nat) (rl : Nat)
    (h : Event.decoded d rl ∈ (run_groups t registry gs).snd) :
    d ≠ [] ∧ rl ≤ d.length := by
  induction gs with
  | nil => simp [run_groups] at h
  | cons g rest ih =>
    obtain ⟨n, ms⟩ := g
    simp only [run_groups] at h
    cases hf : registry.find? (fun device_ => device_.name == n) with
    | none =>
      rw [hf] at h
      exact ih h
    | some dp =>
      rw [hf] at h
      simp only [] at h
      cases hr : run_models t dp.battery_level ms with
      | mk o evs =>
        rw [hr] at h
        cases o with
        | some upd =>
          apply run_models_decoded t dp.battery_level ms d rl
          rw [hr]
          exact h
        | none =>
          simp only [] at h
          rcases List.mem_append.mp h with h1 | h1
          · apply run_models_decoded t dp.battery_level ms d rl
            rw [hr]
            exact h1
          · exact ih h1

lemma primary_result_decoded (t : Transport) (registry : List DeviceProfile)
    (existing_model : DeviceModel) (d : List Nat) (rl : Nat)
    (h : Event.decoded d rl ∈ (primary_result t registry existing_model).snd) :
    d ≠ [] ∧ rl ≤ d.length := by
  simp only [primary_result] at h
  cases hf : find_profile_by_pid registry existing_model.product_id with
  | none =>
    rw [hf] at h
    simp at h
  | some dp =>
    rw [hf] at h
    exact run_attempt_decoded t dp.battery_level existing_model d rl h

/-- C3: whenever a read returns fewer than response_length bytes or an
empty buffer, get_status never applies the profile decoding closures to
the short buffer and the attempt simply fails so the cascade moves on (and
being a plain function it cannot raise): every decode event of a
get_status log carries a nonempty buffer of at least response_length
bytes, and an attempt whose read is insufficient yields no update and no
decode event. -/
theorem c3_short_read_never_decoded :
    ∀ (t : Transport) (registry : List DeviceProfile)
      (exists_model : Option DeviceModel),
      (∀ (data : List Nat) (response_length : Nat),
        Event.decoded data response_length ∈ (get_status t registry exists_model).snd →
        data ≠ [] ∧ response_length ≤ data.length)
      ∧ ∀ (bp : BatteryLevelSpec) (m : DeviceModel),
          (t.read m.vendor_id m.product_id m.endpoint bp.response_length = [] ∨
            (t.read m.vendor_id m.product_id m.endpoint bp.response_length).length <
              bp.response_length) →
          (run_attempt t bp m).fst = none
          ∧ (run_attempt t bp m).snd.filter is_decoded_event = [] := by
  intro t registry exists_model
  constructor
  · intro data response_length h
    cases exists_model with
    | none => simp [get_status] at h
    | some existing_model =>
      simp only [get_status] at h
      cases hp : primary_result t registry existing_model with
      | mk o evs =>
        rw [hp] at h
        cases o with
        | some upd =>
          apply primary_result_decoded t registry existing_model data response_length
          rw [hp]
          exact h
        | none =>
          simp only [] at h
          cases hg : run_groups t registry (build_profile_groups registry existing_model) with
          | mk o2 evs2 =>
            rw [hg] at h
            have hmem : Event.decoded data response_length ∈ evs ++ evs2 := by
              cases o2 with
              | some upd => exact h
              | none => exact h
            rcases List.mem_append.mp hmem with h1 | h1
            · apply primary_result_decoded t registry existing_model data response_length
              rw [hp]
              exact h1
            · apply run_groups_decoded t registry
                (build_profile_groups registry existing_model) data response_length
              rw [hg]
              exact h1
  · intro bp m h
    exact run_attempt_insufficient t bp m h

/-- Witness for C3: in the wired-dead scenario the cascade decodes the
wireless response of three bytes (so a decode event with a sufficient
buffer exists), and the insufficient wired read produces a failed attempt
with no decode event. -/
theorem c3_short_read_never_decoded_witness :
    (([42, 0, 1] : List Nat) ≠ [] ∧ 3 ≤ ([42, 0, 1] : List Nat).length)
    ∧ ((run_attempt t_wired_dead rival650_battery_level rival650_wired).fst = none
       ∧ (run_attempt t_wired_dead rival650_battery_level
            rival650_wired).snd.filter is_decoded_event = []) :=
  ⟨(c3_short_read_never_decoded t_wired_dead profile (some rival650_wired)).1
      [42, 0, 1] 3 (by decide),
   (c3_short_read_never_decoded t_wired_dead profile (some rival650_wired)).2
      rival650_battery_level rival650_wired (Or.inl rfl)⟩

/- ------------------------------------------------------------------ -/
/- Claim C2: the fallback candidate set and the cascade order.        -/
/- ------------------------------------------------------------------ -/

lemma edf_mem : ∀ (l : List String) (x : String),
    x ∈ erase_dups_first l ↔ x ∈ l
  | [], x => by simp [erase_dups_first]
  | y :: ys, x => by
    rw [erase_dups_first]
    have hrec := edf_mem (ys.filter (fun z => z ≠ y)) x
    constructor
    · intro h
      rcases List.mem_cons.mp h with h1 | h1
      · exact h1 ▸ List.mem_cons_self y ys
      · have h2 := hrec.mp h1
        simp only [List.mem_filter, decide_eq_true_eq] at h2
        exact List.mem_cons_of_mem y h2.1
    · intro h
      by_cases hxy : x = y
      · subst hxy
        exact List.mem_cons_self x _
      · rcases List.mem_cons.mp h with h1 | h1
        · exact absurd h1 hxy
        · apply List.mem_cons_of_mem
          apply hrec.mpr
          simp only [List.mem_filter, decide_eq_true_eq]
          exact ⟨h1, hxy⟩
termination_by l _ => l.length
decreasing_by
  simp only [List.length_cons]
  exact Nat.lt_succ_of_le (List.length_filter_le _ _)

lemma edf_nodup : ∀ (l : List String), (erase_dups_first l).Nodup
  | [] => by simp [erase_dups_first]
  | y :: ys => by
    rw [erase_dups_first]
    refine List.nodup_cons.mpr ⟨?_, edf_nodup _⟩
    intro hmem
    have h := (edf_mem _ y).mp hmem
    simp at h
termination_by l => l.length
decreasing_by
  simp only [List.length_cons]
  exact Nat.lt_succ_of_le (List.length_filter_le _ _)

lemma edf_append : ∀ (l : List String) (n : String),
    erase_dups_first (l ++ [n]) =
      if n ∈ l then erase_dups_first l else erase_dups_first l ++ [n]
  | [], n => by simp [erase_dups_first]
  | y :: ys, n => by
    rw [List.cons_append, erase_dups_first, erase_dups_first, List.filter_append]
    by_cases hny : n = y
    · subst hny
      have hfilter : [n].filter (fun z => z ≠ n) = [] := by simp
      rw [hfilter, List.append_nil, if_pos (List.mem_cons_self n ys)]
    · have hfilter : [n].filter (fun z => z ≠ y) = [n] := by simp [hny]
      rw [hfilter, edf_append (ys.filter (fun z => z ≠ y)) n]
      by_cases hmem : n ∈ ys
      · have h1 : n ∈ ys.filter (fun z => z ≠ y) := by simp [hmem, hny]
        rw [if_pos h1, if_pos (List.mem_cons_of_mem y hmem)]
      · have h1 : n ∉ ys.filter (fun z => z ≠ y) := by
          intro hc
          simp only [List.mem_filter, decide_eq_true_eq] at hc
          exact hmem hc.1
        have h2 : n ∉ y :: ys := by
          intro hc
          rcases List.mem_cons.mp hc with hc1 | hc1
          · exact hny hc1
          · exact hmem hc1
        rw [if_neg h1, if_neg h2]
        rfl
termination_by l _ => l.length
decreasing_by
  simp only [List.length_cons]
  exact Nat.lt_succ_of_le (List.length_filter_le _ _)

lemma insert_group_not_mem :
    ∀ (acc : List (String × List DeviceModel)) (n : String) (m : DeviceModel),
      (∀ g ∈ acc, g.fst ≠ n) → insert_group acc n m = acc ++ [(n, [m])]
  | [], n, m, _ => rfl
  | (k, ms) :: rest, n, m, h => by
    rw [insert_group]
    have hk : ¬ (k == n) = true := by
      simp only [beq_iff_eq]
      exact h (k, ms) (List.mem_cons_self _ _)
    rw [if_neg hk, insert_group_not_mem rest n m
      (fun g hg => h g (List.mem_cons_of_mem _ hg))]
    rfl

lemma insert_group_map :
    ∀ (keys : List String) (f : String → List DeviceModel) (n : String) (m : DeviceModel),
      n ∈ keys → keys.Nodup →
      insert_group (keys.map (fun k => (k, f k))) n m =
        keys.map (fun k => (k, if k = n then f k ++ [m] else f k))
  | [], f, n, m, hmem, _ => absurd hmem (by simp)
  | k0 :: krest, f, n, m, hmem, hnd => by
    simp only [List.map_cons]
    rw [insert_group]
    by_cases hk : k0 = n
    · subst hk
      rw [if_pos (by simp)]
      have htail : krest.map (fun k => (k, if k = k0 then f k ++ [m] else f k)) =
          krest.map (fun k => (k, f k)) := by
        apply List.map_congr_left
        intro k hk2
        have hne : k ≠ k0 := by
          intro he
          exact (List.nodup_cons.mp hnd).1 (he ▸ hk2)
        simp [hne]
      rw [htail]
      simp
    · rw [if_neg (by simp only [beq_iff_eq]; exact hk)]
      have hmem2 : n ∈ krest := by
        rcases List.mem_cons.mp hmem with h | h
        · exact absurd h.symm hk
        · exact h
      rw [insert_group_map krest f n m hmem2 (List.nodup_cons.mp hnd).2]
      simp [hk]

lemma filter_fst_nil (cands : List (String × DeviceModel)) (n : String)
    (h : n ∉ cands.map Prod.fst) :
    cands.filter (fun c => c.fst == n) = [] := by
  induction cands with
  | nil => rfl
  | cons c rest ih =>
    have hc : ¬ (c.fst == n) = true := by
      simp only [beq_iff_eq]
      intro he
      exact h (by simp [he])
    rw [List.filter_cons, if_neg hc]
    exact ih (fun hm => h (by simp at hm ⊢; right; exact hm))

lemma groups_of_append (cands : List (String × DeviceModel)) (n : String) (m : DeviceModel) :
    groups_of (cands ++ [(n, m)]) = insert_group (groups_of cands) n m := by
  unfold groups_of
  rw [List.map_append]
  simp only [List.map_cons, List.map_nil]
  rw [edf_append]
  by_cases hn : n ∈ cands.map Prod.fst
  · rw [if_pos hn]
    rw [insert_group_map (erase_dups_first (cands.map Prod.fst))
        (fun k => (cands.filter (fun c => c.fst == k)).map Prod.snd) n m
        ((edf_mem _ n).mpr hn) (edf_nodup _)]
    apply List.map_congr_left
    intro k hk
    rw [List.filter_append, List.map_append]
    by_cases hkn : k = n
    · subst hkn
      simp
    · have hne : ¬ (n == k) = true := by
        simp only [beq_iff_eq]
        exact fun he => hkn he.symm
      simp only [List.filter_cons, List.filter_nil, hne, if_neg, Bool.false_eq_true,
        not_false_eq_true, List.map_nil, List.append_nil]
      simp [hkn]
  · rw [if_neg hn]
    rw [List.map_append]
    have hig := insert_group_not_mem
      ((erase_dups_first (cands.map Prod.fst)).map
        (fun k => (k, (cands.filter (fun c => c.fst == k)).map Prod.snd))) n m
      (by
        intro g hg
        rcases List.mem_map.mp hg with ⟨k, hk, hgk⟩
        have hf : g.fst = k := by rw [← hgk]
        rw [hf]
        intro he
        exact hn (he ▸ (edf_mem _ k).mp hk))
    rw [hig]
    congr 1
    · apply List.map_congr_left
      intro k hk
      have hkn : k ≠ n := fun he => hn (he ▸ (edf_mem _ k).mp hk)
      rw [List.filter_append]
      have hne : ¬ (n == k) = true := by
        simp only [beq_iff_eq]
        exact fun he => hkn he.symm
      simp [hne]
    · simp only [List.map_cons, List.map_nil]
      rw [List.filter_append, filter_fst_nil cands n hn]
      simp

lemma build_groups_foldl (registry : List DeviceProfile) (existing_model : DeviceModel) :
    ∀ (models : List DeviceModel) (cands : List (String × DeviceModel)),
      models.foldl (fun profile_groups model =>
        if model.product_id == existing_model.product_id then profile_groups
        else
          match find_profile_by_pid registry model.product_id with
          | none => profile_groups
          | some device_profile => insert_group profile_groups device_profile.name model)
        (groups_of cands)
      = groups_of (cands ++ models.filterMap (cascade_candidate registry existing_model))
  | [], cands => by simp
  | model :: rest, cands => by
    rw [List.foldl_cons, List.filterMap_cons]
    by_cases hpid : (model.product_id == existing_model.product_id) = true
    · rw [if_pos hpid]
      have hcc : cascade_candidate registry existing_model model = none := by
        simp only [cascade_candidate]
        rw [if_pos hpid]
      rw [hcc]
      exact build_groups_foldl registry existing_model rest cands
    · rw [if_neg hpid]
      cases hfp : find_profile_by_pid registry model.product_id with
      | none =>
        have hcc : cascade_candidate registry existing_model model = none := by
          simp only [cascade_candidate]
          rw [if_neg hpid, hfp]
        rw [hcc]
        exact build_groups_foldl registry existing_model rest cands
      | some dp =>
        have hcc : cascade_candidate registry existing_model model =
            some (dp.name, model) := by
          simp only [cascade_candidate]
          rw [if_neg hpid, hfp]
        rw [hcc]
        simp only []
        rw [← groups_of_append]
        rw [build_groups_foldl registry existing_model rest (cands ++ [(dp.name, model)])]
        rw [List.append_assoc]
        rfl

lemma groups_of_nil : groups_of ([] : List (String × DeviceModel)) = [] := by
  simp [groups_of, erase_dups_first]

lemma build_profile_groups_eq (registry : List DeviceProfile)
    (existing_model : DeviceModel) :
    build_profile_groups registry existing_model =
      groups_of (cascade_candidates registry existing_model) := by
  unfold build_profile_groups cascade_candidates
  rw [show ([] : List (String × List DeviceModel)) = groups_of [] from groups_of_nil.symm]
  rw [build_groups_foldl registry existing_model (_load_models registry) []]
  rw [List.nil_append]

lemma find_profile_by_pid_isSome (registry : List DeviceProfile) (m : DeviceModel)
    (h : m ∈ _load_models registry) :
    (find_profile_by_pid registry m.product_id).isSome := by
  unfold _load_models at h
  rcases List.mem_flatMap.mp h with ⟨d, hd, hm⟩
  rcases List.mem_map.mp hm with ⟨m0, hm0, he⟩
  have hpid : m0.product_id = m.product_id := by rw [← he]
  unfold find_profile_by_pid
  rw [List.find?_isSome]
  refine ⟨d, hd, ?_⟩
  rw [List.any_eq_true]
  exact ⟨m0, hm0, by simp [hpid]⟩

lemma cascade_candidates_map_snd (registry : List DeviceProfile)
    (existing_model : DeviceModel) :
    ∀ (l : List DeviceModel),
      (∀ m ∈ l, (find_profile_by_pid registry m.product_id).isSome) →
      (l.filterMap (cascade_candidate registry existing_model)).map Prod.snd =
        l.filter (fun m => m.product_id != existing_model.product_id)
  | [], _ => rfl
  | m :: rest, h => by
    rw [List.filterMap_cons, List.filter_cons]
    by_cases hpid : (m.product_id == existing_model.product_id) = true
    · have hcc : cascade_candidate registry existing_model m = none := by
        simp only [cascade_candidate]
        rw [if_pos hpid]
      rw [hcc]
      have hne : ¬ (m.product_id != existing_model.product_id) = true := by
        simp only [bne_iff_ne, ne_eq, not_not]
        exact beq_iff_eq.mp hpid
      rw [if_neg hne]
      exact cascade_candidates_map_snd registry existing_model rest
        (fun x hx => h x (List.mem_cons_of_mem m hx))
    · have hsome := h m (List.mem_cons_self m rest)
      rcases Option.isSome_iff_exists.mp hsome with ⟨dp, hdp⟩
      have hcc : cascade_candidate registry existing_model m = some (dp.name, m) := by
        simp only [cascade_candidate]
        rw [if_neg hpid, hdp]
      rw [hcc]
      have hne : (m.product_id != existing_model.product_id) = true := by
        simp only [bne_iff_ne, ne_eq]
        exact fun he => hpid (beq_iff_eq.mpr he)
      rw [if_pos hne, List.map_cons]
      rw [cascade_candidates_map_snd registry existing_model rest
        (fun x hx => h x (List.mem_cons_of_mem m hx))]

lemma filter_pid_erase : ∀ (l : List DeviceModel) (x : DeviceModel),
    distinct_pids l = true → x ∈ l →
    l.filter (fun m => m.product_id != x.product_id) = l.erase x
  | [], x, _, hmem => absurd hmem (by simp)
  | m :: rest, x, hd, hmem => by
    have hall : rest.all (fun m2 => m2.product_id != m.product_id) = true := by
      have := hd
      simp only [distinct_pids, Bool.and_eq_true] at this
      exact this.1
    have hrest : distinct_pids rest = true := by
      have := hd
      simp only [distinct_pids, Bool.and_eq_true] at this
      exact this.2
    rw [List.filter_cons, List.erase_cons]
    by_cases hmx : m = x
    · subst hmx
      have hne : ¬ (m.product_id != m.product_id) = true := by simp
      rw [if_neg hne, if_pos (show (m == m) = true by simp)]
      apply List.filter_eq_self.mpr
      intro a ha
      exact List.all_eq_true.mp hall a ha
    · have hxrest : x ∈ rest := by
        rcases List.mem_cons.mp hmem with h | h
        · exact absurd h.symm hmx
        · exact h
      have hne : (m.product_id != x.product_id) = true := by
        have := List.all_eq_true.mp hall x hxrest
        simp only [bne_iff_ne, ne_eq] at this ⊢
        exact fun he => this he.symm
      rw [if_pos hne, if_neg (show ¬ (m == x) = true by simp [hmx])]
      rw [filter_pid_erase rest x hrest hxrest]

lemma run_models_eq (t : Transport) (bp : BatteryLevelSpec) :
    ∀ (ms : List DeviceModel),
      run_models t bp ms = first_success (ms.map (run_attempt t bp))
  | [] => rfl
  | m :: rest => by
    rw [List.map_cons]
    simp only [run_models]
    cases hr : run_attempt t bp m with
    | mk o evs =>
      cases o with
      | some upd => rfl
      | none =>
        simp only [first_success]
        rw [run_models_eq t bp rest]

lemma first_success_append : ∀ (a b : List (Option StatusUpdate × List Event)),
    first_success (a ++ b) =
      match first_success a with
      | (some upd, evs) => (some upd, evs)
      | (none, evs) => ((first_success b).fst, evs ++ (first_success b).snd)
  | [], b => by
    simp only [List.nil_append, first_success]
  | (o, evs) :: rest, b => by
    cases o with
    | some upd => rfl
    | none =>
      rw [List.cons_append]
      simp only [first_success]
      rw [first_success_append rest b]
      cases hr : first_success rest with
      | mk o2 evs2 =>
        cases o2 with
        | some upd => rfl
        | none => simp

lemma run_groups_eq (t : Transport) (registry : List DeviceProfile) :
    ∀ (gs : List (String × List DeviceModel)),
      run_groups t registry gs = first_success (attempt_outcomes t registry gs)
  | [] => rfl
  | (n, ms) :: rest => by
    simp only [run_groups, attempt_outcomes, List.flatMap_cons]
    cases hf : registry.find? (fun device_ => device_.name == n) with
    | none =>
      simp only [List.nil_append]
      exact run_groups_eq t registry rest
    | some dp =>
      simp only []
      rw [first_success_append]
      rw [← run_models_eq t dp.battery_level ms]
      cases hr : run_models t dp.battery_level ms with
      | mk o evs =>
        cases o with
        | some upd => rfl
        | none =>
          simp only []
          rw [run_groups_eq t registry rest]
          rfl

lemma first_success_fst_findSome :
    ∀ (l : List (Option StatusUpdate × List Event)),
      (first_success l).fst = l.findSome? Prod.fst
  | [] => rfl
  | (o, evs) :: rest => by
    cases o with
    | some upd => rfl
    | none =>
      simp only [first_success, List.findSome?_cons]
      exact first_success_fst_findSome rest

/-- C2: when the primary attempt fails, the fallback candidate set built
by get_status is every other variant of the full registry except the one
just tried (with distinct product ids the skip by product id removes
exactly that one), grouped by owning profile with registry order kept
within and across groups (groups in order of first occurrence, each group
in registry order); the cascade attempts open, write and read on each
candidate in that order and the returned status is the decoded result of
the first successful candidate, later candidates contributing nothing
(the log ends with the first success). -/
theorem c2_fallback_candidates_and_cascade :
    ∀ (t : Transport) (registry : List DeviceProfile) (existing_model : DeviceModel),
      distinct_pids (_load_models registry) = true →
      existing_model ∈ _load_models registry →
      (primary_result t registry existing_model).fst = none →
      build_profile_groups registry existing_model =
          groups_of (cascade_candidates registry existing_model)
      ∧ (cascade_candidates registry existing_model).map Prod.snd =
          (_load_models registry).erase existing_model
      ∧ (first_success (attempt_outcomes t registry
            (build_profile_groups registry existing_model))).fst =
          (attempt_outcomes t registry
            (build_profile_groups registry existing_model)).findSome? Prod.fst
      ∧ get_status t registry (some existing_model) =
          (match (first_success (attempt_outcomes t registry
               (build_profile_groups registry existing_model))).fst with
           | some upd => { name := upd.name, battery := some upd.battery,
                           charging := some upd.charging }
           | none => no_device_found,
           (primary_result t registry existing_model).snd ++
             (first_success (attempt_outcomes t registry
               (build_profile_groups registry existing_model))).snd) := by
  intro t registry existing_model hdist hmem hprim
  refine ⟨build_profile_groups_eq registry existing_model, ?_,
    first_success_fst_findSome _, ?_⟩
  · have h1 := cascade_candidates_map_snd registry existing_model
      (_load_models registry)
      (fun m hm => find_profile_by_pid_isSome registry m hm)
    unfold cascade_candidates
    rw [h1]
    exact filter_pid_erase (_load_models registry) existing_model hdist hmem
  · simp only [get_status]
    cases hp : primary_result t registry existing_model with
    | mk o pevs =>
      have ho : o = none := by rwa [hp] at hprim
      subst ho
      simp only []
      rw [run_groups_eq t registry (build_profile_groups registry existing_model)]
      cases hfs : first_success (attempt_outcomes t registry
          (build_profile_groups registry existing_model)) with
      | mk o2 evs2 =>
        cases o2 with
        | some upd => rfl
        | none => rfl

/-- Witness for C2 at the real registry with the wired variant cached and
failing and the wireless variant answering: all hypotheses hold and the
cascade characterization applies. -/
theorem c2_fallback_candidates_and_cascade_witness :
    build_profile_groups profile rival650_wired =
        groups_of (cascade_candidates profile rival650_wired)
    ∧ (cascade_candidates profile rival650_wired).map Prod.snd =
        (_load_models profile).erase rival650_wired
    ∧ (first_success (attempt_outcomes t_wired_dead profile
          (build_profile_groups profile rival650_wired))).fst =
        (attempt_outcomes t_wired_dead profile
          (build_profile_groups profile rival650_wired)).findSome? Prod.fst
    ∧ get_status t_wired_dead profile (some rival650_wired) =
        (match (first_success (attempt_outcomes t_wired_dead profile
             (build_profile_groups profile rival650_wired))).fst with
         | some upd => { name := upd.name, battery := some upd.battery,
                         charging := some upd.charging }
         | none => no_device_found,
         (primary_result t_wired_dead profile rival650_wired).snd ++
           (first_success (attempt_outcomes t_wired_dead profile
             (build_profile_groups profile rival650_wired))).snd) :=
  c2_fallback_candidates_and_cascade t_wired_dead profile rival650_wired
    (by decide) (by decide) (by decide)
